import Mathlib

/-!
Verification of the UwUntu API key generator service (src/index.js).

The service is an Express application over a SQLite store with three
tables (users, apikeys, admins).  We embed the store as lists of rows
plus the AUTOINCREMENT counter for the users table, and each route
handler as a pure function from (request data, store) to
(response, store).  Persistence failures that the routes compensate for
(the apikey insert in POST /api/save-user, the two deletes in
POST /admin/api/user/:id/delete) are modelled with explicit
fault-injection booleans, alongside the deterministic failure causes
(UNIQUE and PRIMARY KEY constraint violations) that the lists can
express directly.  Timestamps are modelled as natural numbers
(epoch seconds) where the code compares them numerically, and as opaque
strings where the code only stores and echoes them.
-/

namespace UwuntuApi

/-- A row of the users table: id INTEGER PRIMARY KEY AUTOINCREMENT,
firstname, lastname TEXT NOT NULL, email TEXT NOT NULL UNIQUE,
is_online INTEGER DEFAULT 0, last_seen DATETIME DEFAULT NULL,
created_at TEXT. -/
structure UserRow where
  id : Nat
  firstname : String
  lastname : String
  email : String
  is_online : Bool
  last_seen : Option Nat
  created_at : String
deriving Repr, DecidableEq

/-- A row of the apikeys table: id INTEGER PRIMARY KEY (equals the
owning users.id), api_key TEXT NOT NULL UNIQUE, created_at TEXT.
The schema declares no status column. -/
structure ApiKeyRow where
  id : Nat
  api_key : String
  created_at : String
deriving Repr, DecidableEq

/-- A row of the admins table. -/
structure AdminRow where
  id : Nat
  email : String
  password_hash : String
  created_at : String
deriving Repr, DecidableEq

/-- The SQLite database: three tables plus the AUTOINCREMENT counter of
the users table (the next id handed out; AUTOINCREMENT never reuses
ids, so the counter survives a compensating delete). -/
structure Store where
  users : List UserRow
  apikeys : List ApiKeyRow
  admins : List AdminRow
  nextUserId : Nat
deriving Repr, DecidableEq

/-! ### Key generator (makeApiKey, src/index.js lines 72-75)

The code draws 8 random bytes, hex-encodes them with lowercase digits,
uppercases the result character by character, and prepends the fixed
head text. -/

/-- Lowercase hexadecimal digit for a nibble. -/
def lowerHexChar (n : Nat) : Char :=
  "0123456789abcdef".toList.getD n '0'

/-- Hex encoding of one byte: high nibble then low nibble. -/
def byteToLowerHex (b : Nat) : List Char :=
  [lowerHexChar (b / 16), lowerHexChar (b % 16)]

/-- makeApiKey: the fixed text followed by the hex encoding of the
8 random bytes, uppercased character by character. -/
def makeApiKey (bytes : List Nat) : String :=
  "UWUNTU-API-" ++ String.mk ((bytes.flatMap byteToLowerHex).map Char.toUpper)

/-! ### Key format check (GET /api/validate, lines 129-130)

The route tests the query string against /^UWUNTU-API-[A-F0-9]\x7b16\x7d$/
(anchored at both ends, so an exact match of the whole string). -/

/-- A character the class [A-F0-9] accepts. -/
def isUpperHexChar (c : Char) : Bool :=
  ('0' ≤ c && c ≤ '9') || ('A' ≤ c && c ≤ 'F')

/-- Whole-string match of UWUNTU-API- followed by exactly 16
characters from [A-F0-9]. -/
def keyFormatOk (s : String) : Bool :=
  let cs := s.toList
  (cs.take 11 = "UWUNTU-API-".toList : Bool)
    && (cs.drop 11).length == 16
    && (cs.drop 11).all isUpperHexChar

/-! ### POST /api/save-user (lines 91-121) -/

/-- The joined row SELECTed after a successful save
(users LEFT JOIN apikeys on the new id). -/
structure SavedRow where
  id : Nat
  firstname : String
  lastname : String
  email : String
  user_created_at : String
  api_key : Option String
  apikey_created_at : Option String
deriving Repr, DecidableEq

/-- The SELECT issued after the two inserts: the user row by id,
left-joined with its apikey row. -/
def fetchJoined (s : Store) (uid : Nat) : Option SavedRow :=
  (s.users.find? (fun u => u.id == uid)).map fun u =>
    let k := s.apikeys.find? (fun a => a.id == uid)
    { id := u.id, firstname := u.firstname, lastname := u.lastname,
      email := u.email, user_created_at := u.created_at,
      api_key := k.map (fun a => a.api_key),
      apikey_created_at := k.map (fun a => a.created_at) }

/-- Responses of POST /api/save-user. -/
inductive SaveResp where
  | missingFields
  | emailExists
  | insertKeyFailed
  | fetchFailed
  | ok (row : SavedRow)
deriving Repr, DecidableEq

/-- HTTP status of each save-user response. -/
def SaveResp.status : SaveResp → Nat
  | .missingFields => 400
  | .emailExists => 409
  | .insertKeyFailed => 500
  | .fetchFailed => 500
  | .ok _ => 200

/-- POST /api/save-user.  Rejects a missing field (JS falsiness of a
missing or empty body string); inserts the user row, failing with 409
when the UNIQUE constraint on email fires; inserts the apikey row with
the new id, and on any failure of that insert (the UNIQUE constraint on
api_key, the PRIMARY KEY constraint on id, or an injected fault
`forceKeyFail`) deletes the just-inserted user row and answers 500;
otherwise SELECTs and returns the joined row.  `nowText` stands for
datetime of the moment, filled into the created_at defaults. -/
def saveUser (s : Store) (firstname lastname email apiKey : String)
    (nowText : String) (forceKeyFail : Bool) : SaveResp × Store :=
  if firstname = "" || lastname = "" || email = "" || apiKey = "" then
    (.missingFields, s)
  else if s.users.any (fun u => u.email == email) then
    (.emailExists, s)
  else
    let userId := s.nextUserId
    let newUser : UserRow :=
      { id := userId, firstname := firstname, lastname := lastname,
        email := email, is_online := false, last_seen := none,
        created_at := nowText }
    let s1 : Store :=
      { s with users := s.users ++ [newUser], nextUserId := userId + 1 }
    if forceKeyFail || s1.apikeys.any (fun k => k.api_key == apiKey || k.id == userId) then
      -- rollback user: DELETE FROM users WHERE id = userId
      let s2 : Store := { s1 with users := s1.users.filter (fun u => u.id != userId) }
      (.insertKeyFailed, s2)
    else
      let newKey : ApiKeyRow := { id := userId, api_key := apiKey, created_at := nowText }
      let s2 : Store := { s1 with apikeys := s1.apikeys ++ [newKey] }
      match fetchJoined s2 userId with
      | none => (.fetchFailed, s2)
      | some row => (.ok row, s2)

/-! ### GET /api/validate (lines 124-159) -/

/-- The row object returned by the SELECT on apikeys carries only the
schema columns; there is no status column, so reading row.status
always yields nothing. -/
def apiKeyStatus (_row : ApiKeyRow) : Option String := none

/-- Responses of GET /api/validate. -/
inductive ValidateResp where
  | missingKey
  | invalidFormat
  | notFound
  | ok (key stat createdAt : String)
deriving Repr, DecidableEq

/-- HTTP status of each validate response. -/
def ValidateResp.status : ValidateResp → Nat
  | .missingKey => 400
  | .invalidFormat => 400
  | .notFound => 404
  | .ok _ _ _ => 200

/-- The valid flag of each validate response body. -/
def ValidateResp.valid : ValidateResp → Bool
  | .ok _ _ _ => true
  | _ => false

/-- GET /api/validate.  A missing or empty key (JS falsiness of the
query value) answers missing_key; a string failing the format test
answers invalid_format; a lookup miss answers not_found; on a hit the
owning user is marked online with last_seen set to the current time
`now`, and the response carries the key, row.status defaulted to
active, and the creation timestamp. -/
def validateKey (s : Store) (key : Option String) (now : Nat) : ValidateResp × Store :=
  match key with
  | none => (.missingKey, s)
  | some k =>
    if k = "" then (.missingKey, s)
    else if !keyFormatOk k then (.invalidFormat, s)
    else
      match s.apikeys.find? (fun r => r.api_key == k) with
      | none => (.notFound, s)
      | some row =>
        let s1 : Store :=
          { s with users := s.users.map (fun u =>
              if u.id == row.id then { u with is_online := true, last_seen := some now } else u) }
        (.ok row.api_key ((apiKeyStatus row).getD "active") row.created_at, s1)

/-! ### Admin session guard (requireAdmin, lines 222-225)

The express-session middleware stores adminId in the server-side
session at login; requireAdmin passes when req.session.adminId is
truthy (a nonzero number), else answers 401. -/

/-- requireAdmin: the session carries a truthy adminId. -/
def requireAdmin (adminId : Option Nat) : Bool :=
  match adminId with
  | none => false
  | some i => i != 0

/-- An admin route response: 401 Unauthorized, or the wrapped result. -/
inductive AdminResp (α : Type) where
  | unauthorized
  | ok (a : α)
deriving Repr, DecidableEq

/-- HTTP status of an admin route response (the wrapped handlers here
answer 200 on success). -/
def AdminResp.status : AdminResp α → Nat
  | .unauthorized => 401
  | .ok _ => 200

/-! ### GET /admin/api/users (lines 231-250) -/

/-- One record of the listing: user columns, the computed online_now,
and the left-joined apikey columns. -/
structure ListedRow where
  id : Nat
  firstname : String
  lastname : String
  email : String
  last_seen : Option Nat
  online_now : Bool
  user_created_at : String
  api_key : Option String
  apikey_created_at : Option String
deriving Repr, DecidableEq

/-- The presence window of the listing query: 30 days in seconds. -/
def ONLINE_WINDOW_SECONDS : Nat := 30 * 24 * 3600

/-- The CASE expression of the listing query: last_seen is not null and
now minus last_seen (integer subtraction of epoch seconds) is at most
the window. -/
def onlineNow (now : Nat) (last_seen : Option Nat) : Bool :=
  match last_seen with
  | none => false
  | some t => decide ((now : Int) - (t : Int) ≤ (ONLINE_WINDOW_SECONDS : Int))

/-- ORDER BY u.id ASC. -/
def userIdLe (a b : UserRow) : Prop := a.id ≤ b.id

instance : DecidableRel userIdLe := fun a b => Nat.decLe a.id b.id

instance : IsTotal UserRow userIdLe := ⟨fun a b => Nat.le_total a.id b.id⟩

instance : IsTrans UserRow userIdLe := ⟨fun _ _ _ => Nat.le_trans⟩

/-- The users table ordered ascending by id. -/
def sortedUsers (s : Store) : List UserRow :=
  s.users.insertionSort userIdLe

/-- One SELECTed record: user columns, online_now, LEFT JOIN apikeys
ON a.id = u.id. -/
def joinListed (apikeys : List ApiKeyRow) (now : Nat) (u : UserRow) : ListedRow :=
  let k := apikeys.find? (fun a => a.id == u.id)
  { id := u.id, firstname := u.firstname, lastname := u.lastname,
    email := u.email, last_seen := u.last_seen,
    online_now := onlineNow now u.last_seen,
    user_created_at := u.created_at,
    api_key := k.map (fun a => a.api_key),
    apikey_created_at := k.map (fun a => a.created_at) }

/-- The rows of GET /admin/api/users. -/
def listUsers (s : Store) (now : Nat) : List ListedRow :=
  (sortedUsers s).map (joinListed s.apikeys now)

/-- GET /admin/api/users behind the guard. -/
def adminListUsers (sess : Option Nat) (s : Store) (now : Nat) :
    AdminResp (List ListedRow) :=
  if requireAdmin sess then .ok (listUsers s now) else .unauthorized

/-! ### POST /admin/api/user/:id/revoke (lines 254-260) -/

/-- DELETE FROM apikeys WHERE id = ?; answers success whether or not a
row matched. -/
def revokeKey (s : Store) (id : Nat) : Store :=
  { s with apikeys := s.apikeys.filter (fun k => k.id != id) }

/-- POST /admin/api/user/:id/revoke behind the guard. -/
def adminRevoke (sess : Option Nat) (s : Store) (id : Nat) :
    AdminResp Unit × Store :=
  if requireAdmin sess then (.ok (), revokeKey s id) else (.unauthorized, s)

/-! ### GET /admin/api/export (lines 263-276) -/

/-- One row of the export SELECT (users LEFT JOIN apikeys, ordered by
id). -/
structure ExportRow where
  id : Nat
  firstname : String
  lastname : String
  email : String
  user_created_at : String
  api_key : Option String
  apikey_created_at : Option String
  last_seen : Option Nat
deriving Repr, DecidableEq

/-- The export SELECT for one user. -/
def joinExport (apikeys : List ApiKeyRow) (u : UserRow) : ExportRow :=
  let k := apikeys.find? (fun a => a.id == u.id)
  { id := u.id, firstname := u.firstname, lastname := u.lastname,
    email := u.email, user_created_at := u.created_at,
    api_key := k.map (fun a => a.api_key),
    apikey_created_at := k.map (fun a => a.created_at),
    last_seen := u.last_seen }

/-- String(v).replace of every double quote by two double quotes. -/
def escQuotes (s : String) : String :=
  String.mk (s.toList.flatMap (fun c => if c = '"' then ['"', '"'] else [c]))

/-- The esc helper of the export route: null and undefined become the
empty text with no surrounding quotes; any other value is wrapped in
double quotes with embedded double quotes doubled. -/
def esc (v : Option String) : String :=
  match v with
  | none => ""
  | some t => "\"" ++ escQuotes t ++ "\""

/-- The header line written first. -/
def csvHeader : String :=
  "id,firstname,lastname,email,user_created_at,api_key,apikey_created_at,last_seen\n"

/-- One data line: the id is interpolated bare, every other column goes
through esc.  last_seen is rendered as text when present. -/
def csvLine (r : ExportRow) : String :=
  toString r.id ++ "," ++ esc (some r.firstname) ++ "," ++ esc (some r.lastname)
    ++ "," ++ esc (some r.email) ++ "," ++ esc (some r.user_created_at)
    ++ "," ++ esc r.api_key ++ "," ++ esc r.apikey_created_at
    ++ "," ++ esc (r.last_seen.map (fun n => toString n)) ++ "\n"

/-- The full CSV document of GET /admin/api/export. -/
def exportCsv (s : Store) : String :=
  csvHeader ++ String.join ((sortedUsers s).map (fun u => csvLine (joinExport s.apikeys u)))

/-- GET /admin/api/export behind the guard. -/
def adminExport (sess : Option Nat) (s : Store) : AdminResp String :=
  if requireAdmin sess then .ok (exportCsv s) else .unauthorized

/-! ### POST /admin/api/user/:id/delete (lines 279-295) -/

/-- Responses of the delete route. -/
inductive DeleteResp where
  | invalidId
  | deleteKeysFailed
  | deleteUserFailed
  | okDeleted
deriving Repr, DecidableEq

/-- HTTP status of each delete response. -/
def DeleteResp.status : DeleteResp → Nat
  | .invalidId => 400
  | .deleteKeysFailed => 500
  | .deleteUserFailed => 500
  | .okDeleted => 200

/-- POST /admin/api/user/:id/delete.  Rejects a falsy id (zero); then
BEGIN TRANSACTION, DELETE FROM apikeys WHERE id, DELETE FROM users
WHERE id, COMMIT — on a failure of either delete (injected by
`failKeys` and `failUser`) the route runs ROLLBACK, restoring the
snapshot taken at BEGIN. -/
def deleteUser (s : Store) (id : Nat) (failKeys failUser : Bool) :
    DeleteResp × Store :=
  if id = 0 then (.invalidId, s)
  else
    -- BEGIN TRANSACTION: s is the snapshot a ROLLBACK restores
    if failKeys then (.deleteKeysFailed, s)
    else
      let s1 : Store := { s with apikeys := s.apikeys.filter (fun k => k.id != id) }
      if failUser then (.deleteUserFailed, s)
      else
        let s2 : Store := { s1 with users := s1.users.filter (fun u => u.id != id) }
        (.okDeleted, s2)

/-- POST /admin/api/user/:id/delete behind the guard. -/
def adminDelete (sess : Option Nat) (s : Store) (id : Nat)
    (failKeys failUser : Bool) : AdminResp DeleteResp × Store :=
  if requireAdmin sess then
    let r := deleteUser s id failKeys failUser
    (.ok r.1, r.2)
  else (.unauthorized, s)

/-! ### Specification-side renderings of the CSV export

`escClaim`/`exportCsvClaim` follow the specification sentence for the
export word by word (every value double-quote-escaped, null rendered as
an empty quoted field), to be compared against `exportCsv` above, which
is the embedding of the code.  `dqChars` is an independent recursion
doubling every double quote, used by both specification variants. -/

/-- Double every double quote in a character list. -/
def dqChars : List Char → List Char
  | [] => []
  | c :: cs => if c = '"' then '"' :: '"' :: dqChars cs else c :: dqChars cs

/-- A field wrapped in double quotes with embedded double quotes
doubled. -/
def quoteField (t : String) : String :=
  "\"" ++ String.mk (dqChars t.toList) ++ "\""

/-- Modelled from the spec claim wording: each value double-quote
escaped, and a null value rendered as an empty quoted field. -/
def escClaim (v : Option String) : String :=
  match v with
  | none => quoteField ""
  | some t => quoteField t

/-- Modelled from the spec claim wording: one data line with every
value, the id included, going through `escClaim`. -/
def csvLineClaim (r : ExportRow) : String :=
  escClaim (some (toString r.id)) ++ "," ++ escClaim (some r.firstname)
    ++ "," ++ escClaim (some r.lastname) ++ "," ++ escClaim (some r.email)
    ++ "," ++ escClaim (some r.user_created_at) ++ "," ++ escClaim r.api_key
    ++ "," ++ escClaim r.apikey_created_at
    ++ "," ++ escClaim (r.last_seen.map (fun n => toString n)) ++ "\n"

/-- Modelled from the spec claim wording: the whole document under the
claimed rendering. -/
def exportCsvClaim (s : Store) : String :=
  csvHeader ++ String.join ((sortedUsers s).map (fun u => csvLineClaim (joinExport s.apikeys u)))

/-- The amended rendering of one field: a null value becomes an empty
field with no quotes; any other value is wrapped in double quotes with
embedded double quotes doubled. -/
def escAmended (v : Option String) : String :=
  match v with
  | none => ""
  | some t => quoteField t

/-- The amended rendering of one data line: the id bare, every other
column through `escAmended`, in header order. -/
def csvLineAmended (r : ExportRow) : String :=
  toString r.id ++ "," ++ escAmended (some r.firstname)
    ++ "," ++ escAmended (some r.lastname) ++ "," ++ escAmended (some r.email)
    ++ "," ++ escAmended (some r.user_created_at) ++ "," ++ escAmended r.api_key
    ++ "," ++ escAmended r.apikey_created_at
    ++ "," ++ escAmended (r.last_seen.map (fun n => toString n)) ++ "\n"

/-- The amended rendering of the whole document. -/
def exportCsvAmended (s : Store) : String :=
  csvHeader ++ String.join ((sortedUsers s).map (fun u => csvLineAmended (joinExport s.apikeys u)))

/-! ### Concrete sample data for witnesses -/

/-- The empty database right after table creation. -/
def emptyStore : Store :=
  { users := [], apikeys := [], admins := [], nextUserId := 1 }

/-- A sample onboarded user. -/
def wUser : UserRow :=
  { id := 1, firstname := "John", lastname := "Doe", email := "j@x.com",
    is_online := false, last_seen := none, created_at := "T1" }

/-- The sample user with an embedded double quote in the lastname and
no apikey row. -/
def wUserQuote : UserRow :=
  { id := 1, firstname := "John", lastname := "O\"Brien", email := "j@x.com",
    is_online := false, last_seen := none, created_at := "T1" }

/-- The apikey row of the sample user. -/
def wKey : ApiKeyRow :=
  { id := 1, api_key := "UWUNTU-API-00FF10AB01020304", created_at := "T1" }

/-- A store holding the sample user and its key. -/
def wStore : Store :=
  { users := [wUser], apikeys := [wKey], admins := [], nextUserId := 2 }

/-- A store holding only the quoted-lastname user, with no key. -/
def wStoreQuote : Store :=
  { users := [wUserQuote], apikeys := [], admins := [], nextUserId := 2 }

/-- The joined row returned by the round-trip witness save. -/
def wRow0 : SavedRow :=
  { id := 1, firstname := "John", lastname := "Doe", email := "j@x.com",
    user_created_at := "T0", api_key := some "UWUNTU-API-00FF10AB01020304",
    apikey_created_at := some "T0" }

/-- The store left by the round-trip witness save. -/
def wStore0 : Store :=
  { users := [{ id := 1, firstname := "John", lastname := "Doe",
                email := "j@x.com", is_online := false, last_seen := none,
                created_at := "T0" }],
    apikeys := [{ id := 1, api_key := "UWUNTU-API-00FF10AB01020304", created_at := "T0" }],
    admins := [], nextUserId := 2 }

/-- The user row a successful save inserts. -/
def newUserRow (s : Store) (fn ln em nowText : String) : UserRow :=
  { id := s.nextUserId, firstname := fn, lastname := ln, email := em,
    is_online := false, last_seen := none, created_at := nowText }

/-- The apikey row a successful save inserts. -/
def newKeyRow (s : Store) (k nowText : String) : ApiKeyRow :=
  { id := s.nextUserId, api_key := k, created_at := nowText }

/-- The store a successful save leaves: both rows appended, the
counter advanced. -/
def savedStore (s : Store) (fn ln em k nowText : String) : Store :=
  { s with users := s.users ++ [newUserRow s fn ln em nowText],
           apikeys := s.apikeys ++ [newKeyRow s k nowText],
           nextUserId := s.nextUserId + 1 }

/-- The per-user presence update a successful validation applies: the
owner of the key goes online with last_seen set to the current time. -/
def markSeen (kid now : Nat) (u : UserRow) : UserRow :=
  if u.id == kid then { u with is_online := true, last_seen := some now } else u

/-! ## Theorems -/

/-- C3: with all four fields present, a second saveUser call with an
email already in the store answers DuplicateEmail with HTTP 409, leaves
the store untouched, creates no ApiKey row and keeps the user count. -/
theorem saveUser_duplicate_email_rejected
    (s : Store) (fn ln em k nowText : String) (force : Bool)
    (hfn : fn ≠ "") (hln : ln ≠ "") (hem : em ≠ "") (hk : k ≠ "")
    (u0 : UserRow) (hu0 : u0 ∈ s.users) (hdup : u0.email = em) :
    saveUser s fn ln em k nowText force = (.emailExists, s)
    ∧ SaveResp.emailExists.status = 409
    ∧ (saveUser s fn ln em k nowText force).2.users.length = s.users.length
    ∧ (saveUser s fn ln em k nowText force).2.apikeys = s.apikeys := by
  have hany : s.users.any (fun u => u.email == em) = true :=
    List.any_eq_true.mpr ⟨u0, hu0, by simp [hdup]⟩
  have hmain : saveUser s fn ln em k nowText force = (.emailExists, s) := by
    simp [saveUser, hfn, hln, hem, hk, hany]
  exact ⟨hmain, rfl, by rw [hmain], by rw [hmain]⟩

/-- Witness for C3 at a concrete store. -/
theorem saveUser_duplicate_email_rejected_witness :
    "Jane" ≠ "" ∧ wUser ∈ wStore.users ∧ wUser.email = "j@x.com"
    ∧ saveUser wStore "Jane" "Roe" "j@x.com" "UWUNTU-API-0000000000000000" "T2" false
        = (.emailExists, wStore) := by
  refine ⟨by decide, by simp [wStore], by decide, ?_⟩
  exact (saveUser_duplicate_email_rejected wStore "Jane" "Roe" "j@x.com"
    "UWUNTU-API-0000000000000000" "T2" false (by decide) (by decide) (by decide)
    (by decide) wUser (by simp [wStore]) (by decide)).1

/-- C4: the delete route rejects a falsy (zero) id with HTTP 400 and no
change; a failing apikey delete rolls the transaction back leaving the
store untouched; a failing user delete likewise restores the snapshot,
the key row included; on success both the apikey row and the user row
of that id are gone. -/
theorem deleteUser_transactional
    (s : Store) (id : Nat) (fk fu : Bool) :
    (deleteUser s 0 fk fu = (.invalidId, s) ∧ DeleteResp.invalidId.status = 400)
    ∧ (id ≠ 0 → deleteUser s id true fu = (.deleteKeysFailed, s))
    ∧ (id ≠ 0 → deleteUser s id false true = (.deleteUserFailed, s))
    ∧ (id ≠ 0 → deleteUser s id false false =
        (.okDeleted,
         { s with apikeys := s.apikeys.filter (fun kr => kr.id != id),
                  users := s.users.filter (fun u => u.id != id) })) := by
  refine ⟨⟨by simp [deleteUser], rfl⟩, ?_, ?_, ?_⟩ <;>
    · intro h
      simp [deleteUser, h]

/-- Witness for C4 at a concrete store. -/
theorem deleteUser_transactional_witness :
    (1 : Nat) ≠ 0
    ∧ deleteUser wStore 1 false false =
        (.okDeleted, { users := [], apikeys := [], admins := [], nextUserId := 2 }) := by
  refine ⟨by decide, ?_⟩
  rw [(deleteUser_transactional wStore 1 false false).2.2.2 (by decide)]
  decide

/-- C7: each of the four admin-management routes is behind
requireAdmin: with no valid admin id in the session it answers 401 and
leaves the store alone, and with one it runs the wrapped operation. -/
theorem admin_routes_guarded
    (sess : Option Nat) (s : Store) (now id : Nat) (fk fu : Bool) :
    (requireAdmin sess = false →
      adminListUsers sess s now = .unauthorized
      ∧ adminRevoke sess s id = (.unauthorized, s)
      ∧ adminExport sess s = .unauthorized
      ∧ adminDelete sess s id fk fu = (.unauthorized, s)
      ∧ (AdminResp.unauthorized : AdminResp (List ListedRow)).status = 401)
    ∧ (requireAdmin sess = true →
      adminListUsers sess s now = .ok (listUsers s now)
      ∧ adminRevoke sess s id = (.ok (), revokeKey s id)
      ∧ adminExport sess s = .ok (exportCsv s)
      ∧ adminDelete sess s id fk fu =
          (.ok (deleteUser s id fk fu).1, (deleteUser s id fk fu).2))
    ∧ requireAdmin none = false := by
  refine ⟨fun h => ?_, fun h => ?_, rfl⟩ <;>
    simp [adminListUsers, adminRevoke, adminExport, adminDelete, AdminResp.status, h]

/-- Witness for C7: a missing session is rejected on a route and a
logged-in session passes through on another. -/
theorem admin_routes_guarded_witness :
    requireAdmin (none : Option Nat) = false
    ∧ adminListUsers none wStore 0 = .unauthorized
    ∧ requireAdmin (some 1) = true
    ∧ adminExport (some 1) wStore = .ok (exportCsv wStore) := by
  exact ⟨rfl, ((admin_routes_guarded none wStore 0 1 false false).1 rfl).1, rfl,
    ((admin_routes_guarded (some 1) wStore 0 1 false false).2.1 rfl).2.2.1⟩

/-- C8: revoke deletes exactly the apikey rows of the given id, keeps
every other apikey row, never touches the users (or admins) table, is
idempotent, leaves the store unchanged when no such key row exists, and
the route reports success whenever the guard passes. -/
theorem revokeKey_spec (s : Store) (id : Nat) :
    (revokeKey s id).users = s.users
    ∧ (revokeKey s id).admins = s.admins
    ∧ (∀ kr ∈ (revokeKey s id).apikeys, kr.id ≠ id)
    ∧ (∀ kr ∈ s.apikeys, kr.id ≠ id → kr ∈ (revokeKey s id).apikeys)
    ∧ revokeKey (revokeKey s id) id = revokeKey s id
    ∧ ((∀ kr ∈ s.apikeys, kr.id ≠ id) → revokeKey s id = s)
    ∧ (∀ sess, requireAdmin sess = true → adminRevoke sess s id = (.ok (), revokeKey s id)) := by
  refine ⟨rfl, rfl, ?_, ?_, ?_, ?_, ?_⟩
  · intro kr hkr
    have := List.of_mem_filter hkr
    simpa using this
  · intro kr hkr hne
    exact List.mem_filter.mpr ⟨hkr, by simpa using hne⟩
  · simp [revokeKey, List.filter_filter]
  · intro h
    have : s.apikeys.filter (fun kr => kr.id != id) = s.apikeys :=
      List.filter_eq_self.mpr (fun kr hkr => by simpa using h kr hkr)
    simp [revokeKey, this]
  · intro sess h
    simp [adminRevoke, h]

/-- Witness for C8: revoking an absent key row succeeds and changes
nothing. -/
theorem revokeKey_spec_witness :
    (∀ kr ∈ wStore.apikeys, kr.id ≠ 2) ∧ revokeKey wStore 2 = wStore := by
  refine ⟨by decide, ?_⟩
  exact (revokeKey_spec wStore 2).2.2.2.2.2.1 (by decide)

/-- C9 counterexample: the empty string does not match the key pattern,
yet validateKey answers missing_key for it, not invalid_format (the
route tests JS falsiness before the format). -/
theorem validateKey_empty_string_counterexample :
    keyFormatOk "" = false
    ∧ validateKey wStore (some "") 0 = (.missingKey, wStore)
    ∧ ValidateResp.missingKey ≠ ValidateResp.invalidFormat := by
  exact ⟨by decide, rfl, by decide⟩

/-- C9 amended: every nonempty string failing the pattern is rejected
with invalid_format and HTTP 400 without touching the store; an absent
or empty key is rejected with missing_key and HTTP 400. -/
theorem validateKey_format_rejection
    (s : Store) (now : Nat) (k : String)
    (hk : k ≠ "") (hfmt : keyFormatOk k = false) :
    validateKey s (some k) now = (.invalidFormat, s)
    ∧ ValidateResp.invalidFormat.status = 400
    ∧ validateKey s none now = (.missingKey, s)
    ∧ validateKey s (some "") now = (.missingKey, s)
    ∧ ValidateResp.missingKey.status = 400 := by
  refine ⟨?_, rfl, rfl, rfl, rfl⟩
  simp [validateKey, hk, hfmt]

/-- Witness for C9: a lowercase-hex key and a wrong-length key are both
rejected with invalid_format. -/
theorem validateKey_format_rejection_witness :
    ("UWUNTU-API-abcdef0123456789" ≠ ""
      ∧ keyFormatOk "UWUNTU-API-abcdef0123456789" = false
      ∧ validateKey wStore (some "UWUNTU-API-abcdef0123456789") 0 = (.invalidFormat, wStore))
    ∧ ("UWUNTU-API-ABC" ≠ ""
      ∧ keyFormatOk "UWUNTU-API-ABC" = false
      ∧ validateKey wStore (some "UWUNTU-API-ABC") 0 = (.invalidFormat, wStore)) := by
  refine ⟨⟨by decide, by decide, ?_⟩, ⟨by decide, by decide, ?_⟩⟩
  · exact (validateKey_format_rejection wStore 0 _ (by decide) (by decide)).1
  · exact (validateKey_format_rejection wStore 0 _ (by decide) (by decide)).1

/-- C10: a successful validation always reports the status "active":
the apikeys schema has no status column, so the default branch is taken
on every validation. -/
theorem validateKey_status_always_active
    (s : Store) (key : Option String) (now : Nat)
    (k st cr : String) (h : (validateKey s key now).1 = .ok k st cr) :
    st = "active" ∧ (∀ row : ApiKeyRow, apiKeyStatus row = none) := by
  refine ⟨?_, fun _ => rfl⟩
  unfold validateKey at h
  split at h
  · simp at h
  · split at h
    · simp at h
    · split at h
      · simp at h
      · split at h
        · simp at h
        · simp [apiKeyStatus] at h
          exact h.2.1.symm

/-- Witness for C10 at a concrete successful validation. -/
theorem validateKey_status_always_active_witness :
    (validateKey wStore (some "UWUNTU-API-00FF10AB01020304") 5).1 =
      .ok "UWUNTU-API-00FF10AB01020304" "active" "T1"
    ∧ ("active" : String) = "active" := by
  have h : (validateKey wStore (some "UWUNTU-API-00FF10AB01020304") 5).1 =
      .ok "UWUNTU-API-00FF10AB01020304" "active" "T1" := by decide
  exact ⟨h, (validateKey_status_always_active wStore _ 5 _ _ _ h).1⟩

/-- C1: whenever the user insert goes through but the apikey insert
fails — for any reason: an injected fault, a UNIQUE collision on the
key text, or a PRIMARY KEY collision on the id — the compensating
delete removes the just-inserted user row before the 500 answer, so the
store keeps exactly its previous users and apikeys (only the
AUTOINCREMENT counter has moved): no orphan user row remains. -/
theorem saveUser_key_insert_failure_no_orphan
    (s : Store) (fn ln em k nowText : String) (force : Bool)
    (hids : ∀ u ∈ s.users, u.id < s.nextUserId)
    (hfn : fn ≠ "") (hln : ln ≠ "") (hem : em ≠ "") (hk : k ≠ "")
    (hfresh : ∀ u ∈ s.users, u.email ≠ em)
    (hfail : force = true ∨ ∃ kr ∈ s.apikeys, kr.api_key = k ∨ kr.id = s.nextUserId) :
    saveUser s fn ln em k nowText force =
      (.insertKeyFailed, { s with nextUserId := s.nextUserId + 1 })
    ∧ (∀ u ∈ (saveUser s fn ln em k nowText force).2.users, u ∈ s.users)
    ∧ (saveUser s fn ln em k nowText force).2.apikeys = s.apikeys := by
  have hanyEmail : s.users.any (fun u => u.email == em) = false := by
    rw [List.any_eq_false]
    intro u hu
    simpa using hfresh u hu
  have hcond : (force || s.apikeys.any (fun kr => kr.api_key == k || kr.id == s.nextUserId)) = true := by
    rcases hfail with h | ⟨kr, hkr, hor⟩
    · simp [h]
    · refine Bool.or_eq_true _ _ |>.mpr (.inr (List.any_eq_true.mpr ⟨kr, hkr, ?_⟩))
      rcases hor with h | h <;> simp [h]
  have hfilter : ∀ nu : UserRow, nu.id = s.nextUserId →
      (s.users ++ [nu]).filter (fun u => u.id != s.nextUserId) = s.users := by
    intro nu hnu
    rw [List.filter_append]
    have h1 : s.users.filter (fun u => u.id != s.nextUserId) = s.users :=
      List.filter_eq_self.mpr fun u hu => by
        simpa using Nat.ne_of_lt (hids u hu)
    have h2 : [nu].filter (fun u => u.id != s.nextUserId) = [] := by
      simp [hnu]
    rw [h1, h2, List.append_nil]
  have hmain : saveUser s fn ln em k nowText force =
      (.insertKeyFailed, { s with nextUserId := s.nextUserId + 1 }) := by
    simp only [saveUser]
    rw [if_neg (by simp [hfn, hln, hem, hk]), if_neg (by simp [hanyEmail])]
    rw [if_pos (by simpa using hcond)]
    simp only [Prod.mk.injEq]
    refine ⟨trivial, ?_⟩
    have := hfilter
      { id := s.nextUserId, firstname := fn, lastname := ln, email := em,
        is_online := false, last_seen := none, created_at := nowText } rfl
    simp [this]
  exact ⟨hmain, by rw [hmain]; exact fun u hu => hu, by rw [hmain]⟩

/-- Witness for C1: a duplicate-key collision on the apikey insert at a
concrete store; the user table is as before and only the counter
moved. -/
theorem saveUser_key_insert_failure_no_orphan_witness :
    (∃ kr ∈ wStore.apikeys, kr.api_key = "UWUNTU-API-00FF10AB01020304" ∨ kr.id = wStore.nextUserId)
    ∧ saveUser wStore "Jane" "Roe" "k@x.com" "UWUNTU-API-00FF10AB01020304" "T2" false =
        (.insertKeyFailed, { wStore with nextUserId := 3 }) := by
  refine ⟨⟨wKey, by simp [wStore], .inl rfl⟩, ?_⟩
  have h := (saveUser_key_insert_failure_no_orphan wStore "Jane" "Roe" "k@x.com"
    "UWUNTU-API-00FF10AB01020304" "T2" false (by decide) (by decide) (by decide)
    (by decide) (by decide) (by decide)
    (.inr ⟨wKey, by simp [wStore], .inl rfl⟩)).1
  rw [h]
  decide

/-- C5: the listing is ascending by user id; every record comes from a
user row of the store, carries its fields plus the left-joined apikey
columns (absent key rows give null), and online_now holds exactly when
last_seen is set and the elapsed time since it is within the 30-day
window; conversely every user row appears in the listing. -/
theorem listUsers_spec (s : Store) (now : Nat) :
    ((listUsers s now).Pairwise (fun a b => a.id ≤ b.id))
    ∧ (∀ r ∈ listUsers s now, ∃ u ∈ s.users,
        r.id = u.id ∧ r.firstname = u.firstname ∧ r.lastname = u.lastname
        ∧ r.email = u.email ∧ r.last_seen = u.last_seen
        ∧ r.user_created_at = u.created_at
        ∧ r.api_key = (s.apikeys.find? (fun a => a.id == u.id)).map (fun a => a.api_key)
        ∧ r.apikey_created_at = (s.apikeys.find? (fun a => a.id == u.id)).map (fun a => a.created_at)
        ∧ (r.online_now = true ↔ ∃ t, u.last_seen = some t
            ∧ (now : Int) - (t : Int) ≤ (ONLINE_WINDOW_SECONDS : Int)))
    ∧ (∀ u ∈ s.users, ∃ r ∈ listUsers s now, r.id = u.id) := by
  have hperm : (sortedUsers s).Perm s.users := List.perm_insertionSort userIdLe s.users
  have hsorted : List.Sorted userIdLe (sortedUsers s) :=
    List.sorted_insertionSort userIdLe s.users
  refine ⟨?_, ?_, ?_⟩
  · refine List.pairwise_map.mpr (hsorted.imp ?_)
    intro a b h
    exact h
  · intro r hr
    rcases List.mem_map.mp hr with ⟨u, hu, rfl⟩
    refine ⟨u, hperm.mem_iff.mp hu, rfl, rfl, rfl, rfl, rfl, rfl, rfl, rfl, ?_⟩
    cases hls : u.last_seen with
    | none => simp [joinListed, onlineNow, hls]
    | some t => simp [joinListed, onlineNow, hls]
  · intro u hu
    exact ⟨joinListed s.apikeys now u, List.mem_map.mpr ⟨u, hperm.mem_iff.mpr hu, rfl⟩, rfl⟩

/-- Witness for C5: the sample user appears in the listing of the
sample store. -/
theorem listUsers_spec_witness :
    wUser ∈ wStore.users ∧ (∃ r ∈ listUsers wStore 0, r.id = wUser.id) := by
  refine ⟨by simp [wStore], ?_⟩
  exact (listUsers_spec wStore 0).2.2 wUser (by simp [wStore])

/-- The independent quote-doubling recursion agrees with the flatMap
form used in the embedding of the esc helper. -/
theorem dqChars_eq_flatMap (cs : List Char) :
    dqChars cs = cs.flatMap (fun c => if c = '"' then ['"', '"'] else [c]) := by
  induction cs with
  | nil => rfl
  | cons c cs ih => by_cases h : c = '"' <;> simp [dqChars, h, ih]

/-- The esc helper of the export route renders exactly as the amended
description: null as a bare empty field, anything else quoted with
embedded double quotes doubled. -/
theorem esc_eq_escAmended (v : Option String) : esc v = escAmended v := by
  cases v with
  | none => rfl
  | some t => simp [esc, escAmended, quoteField, escQuotes, dqChars_eq_flatMap]

/-- C6 counterexample: on a store whose only user has an embedded
double quote in the lastname, no apikey row and a null last_seen, the
export renders the id bare and each null as an empty field without
quotes, so the document differs from the one the claim describes (every
value quoted, nulls as empty quoted fields). -/
theorem exportCsv_claim_counterexample :
    exportCsv wStoreQuote =
      "id,firstname,lastname,email,user_created_at,api_key,apikey_created_at,last_seen\n1,\"John\",\"O\"\"Brien\",\"j@x.com\",\"T1\",,,\n"
    ∧ exportCsvClaim wStoreQuote =
      "id,firstname,lastname,email,user_created_at,api_key,apikey_created_at,last_seen\n\"1\",\"John\",\"O\"\"Brien\",\"j@x.com\",\"T1\",\"\",\"\",\"\"\n"
    ∧ exportCsv wStoreQuote ≠ exportCsvClaim wStoreQuote := by
  exact ⟨by decide, by decide, by decide⟩

/-- C6 amended: every row follows the header column order with the id
rendered bare, every other non-null value wrapped in double quotes with
embedded double quotes doubled, and every null value rendered as an
empty field without quotes; in particular the quote in O"Brien is
doubled. -/
theorem exportCsv_amended_rendering (s : Store) :
    exportCsv s = exportCsvAmended s
    ∧ escQuotes "O\"Brien" = "O\"\"Brien" := by
  refine ⟨?_, by decide⟩
  have hline : ∀ r, csvLine r = csvLineAmended r := by
    intro r
    simp only [csvLine, csvLineAmended, esc_eq_escAmended]
  simp only [exportCsv, exportCsvAmended, hline]

/-- Every key the generator produces matches the validation pattern:
the fixed 11-character head followed by 16 characters from [A-F0-9]. -/
theorem makeApiKey_format (bytes : List Nat) (hlen : bytes.length = 8)
    (hb : ∀ b ∈ bytes, b < 256) : keyFormatOk (makeApiKey bytes) = true := by
  have hdata : (makeApiKey bytes).toList =
      "UWUNTU-API-".toList ++ ((bytes.flatMap byteToLowerHex).map Char.toUpper) := by
    show (makeApiKey bytes).data = _
    rw [makeApiKey, String.data_append]
    rfl
  have hflat : ∀ l : List Nat, (l.flatMap byteToLowerHex).length = 2 * l.length := by
    intro l
    induction l with
    | nil => rfl
    | cons b t ih =>
      rw [List.flatMap_cons, List.length_append, ih]
      simp [byteToLowerHex]
      omega
  have hlen2 : ((bytes.flatMap byteToLowerHex).map Char.toUpper).length = 16 := by
    rw [List.length_map, hflat, hlen]
  have hkey : ∀ n < 16, isUpperHexChar (Char.toUpper (lowerHexChar n)) = true := by decide
  have hchars : ∀ c ∈ (bytes.flatMap byteToLowerHex).map Char.toUpper,
      isUpperHexChar c = true := by
    intro c hc
    rcases List.mem_map.mp hc with ⟨c0, hc0, rfl⟩
    rcases List.mem_flatMap.mp hc0 with ⟨b, hbmem, hcb⟩
    have hb256 := hb b hbmem
    have : c0 = lowerHexChar (b / 16) ∨ c0 = lowerHexChar (b % 16) := by
      simpa [byteToLowerHex] using hcb
    rcases this with rfl | rfl
    · exact hkey _ (Nat.div_lt_of_lt_mul (by omega))
    · exact hkey _ (Nat.mod_lt _ (by omega))
  have h11 : ("UWUNTU-API-".toList).length = 11 := by decide
  simp only [keyFormatOk, hdata]
  rw [show (11 : Nat) = ("UWUNTU-API-".toList).length from h11.symm,
    List.take_left, List.drop_left]
  refine (Bool.and_eq_true ..).mpr ⟨(Bool.and_eq_true ..).mpr ⟨?_, ?_⟩, ?_⟩
  · simp
  · simp [hlen2]
  · exact List.all_eq_true.mpr hchars

/-- A validation request whose key passes the format test and is found
in the store answers ok with the active status and marks the owning
user online with last_seen set to the current time. -/
theorem validateKey_hit (s : Store) (k : String) (now : Nat) (kr : ApiKeyRow)
    (hne : k ≠ "") (hfmt : keyFormatOk k = true)
    (hfind : s.apikeys.find? (fun r => r.api_key == k) = some kr) :
    validateKey s (some k) now =
      (.ok kr.api_key "active" kr.created_at,
       { s with users := s.users.map (markSeen kr.id now) }) := by
  simp [validateKey, markSeen, hne, hfmt, hfind, apiKeyStatus]

/-- Inverting a successful save: no stored apikey row collided with the
new key or the new id, and the resulting store appends exactly the new
user row and the new apikey row while advancing the counter. -/
theorem saveUser_ok_inversion (s : Store) (fn ln em k nowText : String)
    (row : SavedRow) (s1 : Store)
    (h : saveUser s fn ln em k nowText false = (.ok row, s1)) :
    (∀ kr ∈ s.apikeys, ¬kr.api_key = k ∧ ¬kr.id = s.nextUserId)
    ∧ s1 = savedStore s fn ln em k nowText := by
  unfold saveUser at h
  split at h
  · simp at h
  · split at h
    · simp at h
    · simp only [Bool.false_or] at h
      split at h
      · simp at h
      · rename_i hcond
        have hany : (s.apikeys.any fun kr => kr.api_key == k || kr.id == s.nextUserId) = false := by
          simpa using hcond
        refine ⟨?_, ?_⟩
        · intro kr hkr
          have hfalse := List.any_eq_false.mp hany kr hkr
          refine ⟨fun hEq => hfalse ?_, fun hEq => hfalse ?_⟩ <;> simp [hEq]
        · split at h
          · simp at h
          · injection h with h1 h2
            exact h2.symm

/-- C2: a key produced by the generator and persisted by a successful
saveUser validates with valid:true, status active and the stored
creation timestamp; the owning user is marked online with last_seen set
to the time of the call; validating the same key again also answers
valid:true and sets last_seen to the (new) current time. -/
theorem generated_key_saveUser_validate_roundtrip
    (s : Store) (bytes : List Nat) (fn ln em nowText : String)
    (row : SavedRow) (s1 : Store) (t1 t2 : Nat)
    (hlen : bytes.length = 8) (hb : ∀ b ∈ bytes, b < 256)
    (hsave : saveUser s fn ln em (makeApiKey bytes) nowText false = (.ok row, s1)) :
    (validateKey s1 (some (makeApiKey bytes)) t1).1
        = .ok (makeApiKey bytes) "active" nowText
    ∧ ((validateKey s1 (some (makeApiKey bytes)) t1).1).valid = true
    ∧ (∃ u ∈ (validateKey s1 (some (makeApiKey bytes)) t1).2.users,
        u.id = s.nextUserId ∧ u.is_online = true ∧ u.last_seen = some t1)
    ∧ (validateKey (validateKey s1 (some (makeApiKey bytes)) t1).2
          (some (makeApiKey bytes)) t2).1
        = .ok (makeApiKey bytes) "active" nowText
    ∧ (∃ u ∈ (validateKey (validateKey s1 (some (makeApiKey bytes)) t1).2
          (some (makeApiKey bytes)) t2).2.users,
        u.id = s.nextUserId ∧ u.is_online = true ∧ u.last_seen = some t2) := by
  have hfmt := makeApiKey_format bytes hlen hb
  have hne : makeApiKey bytes ≠ "" := by
    intro h0
    rw [h0] at hfmt
    exact absurd hfmt (by decide)
  obtain ⟨hfresh, hs1⟩ :=
    saveUser_ok_inversion s fn ln em (makeApiKey bytes) nowText row s1 hsave
  subst hs1
  have hfind1 : (savedStore s fn ln em (makeApiKey bytes) nowText).apikeys.find?
      (fun r => r.api_key == makeApiKey bytes)
      = some (newKeyRow s (makeApiKey bytes) nowText) := by
    show (s.apikeys ++ [newKeyRow s (makeApiKey bytes) nowText]).find? _ = _
    rw [List.find?_append]
    have h0 : s.apikeys.find? (fun r => r.api_key == makeApiKey bytes) = none := by
      rw [List.find?_eq_none]
      intro kr hkr
      simpa using (hfresh kr hkr).1
    rw [h0]
    simp [newKeyRow]
  have h1 := validateKey_hit (savedStore s fn ln em (makeApiKey bytes) nowText)
    (makeApiKey bytes) t1 (newKeyRow s (makeApiKey bytes) nowText) hne hfmt hfind1
  have hmem : newUserRow s fn ln em nowText
      ∈ (savedStore s fn ln em (makeApiKey bytes) nowText).users := by
    simp [savedStore]
  have hupd1 : markSeen (newKeyRow s (makeApiKey bytes) nowText).id t1
      (newUserRow s fn ln em nowText)
      = { newUserRow s fn ln em nowText with is_online := true, last_seen := some t1 } := by
    simp [markSeen, newUserRow, newKeyRow]
  have hupd2 : markSeen (newKeyRow s (makeApiKey bytes) nowText).id t2
      ({ newUserRow s fn ln em nowText with is_online := true, last_seen := some t1 })
      = { newUserRow s fn ln em nowText with is_online := true, last_seen := some t2 } := by
    simp [markSeen, newUserRow, newKeyRow]
  have h2 := validateKey_hit
    ({ savedStore s fn ln em (makeApiKey bytes) nowText with
        users := (savedStore s fn ln em (makeApiKey bytes) nowText).users.map
          (markSeen (newKeyRow s (makeApiKey bytes) nowText).id t1) })
    (makeApiKey bytes) t2 (newKeyRow s (makeApiKey bytes) nowText) hne hfmt hfind1
  refine ⟨?_, ?_, ?_, ?_, ?_⟩
  · rw [h1]
    rfl
  · rw [h1]
    rfl
  · rw [h1]
    refine ⟨_, List.mem_map.mpr ⟨newUserRow s fn ln em nowText, hmem, rfl⟩, ?_⟩
    rw [hupd1]
    exact ⟨rfl, rfl, rfl⟩
  · rw [h1, h2]
    rfl
  · rw [h1, h2]
    refine ⟨_, List.mem_map.mpr
      ⟨markSeen (newKeyRow s (makeApiKey bytes) nowText).id t1 (newUserRow s fn ln em nowText),
        List.mem_map.mpr ⟨newUserRow s fn ln em nowText, hmem, rfl⟩, rfl⟩, ?_⟩
    rw [hupd1, hupd2]
    exact ⟨rfl, rfl, rfl⟩

/-- Witness for C2: the round trip at a concrete byte list and an empty
store. -/
theorem generated_key_saveUser_validate_roundtrip_witness :
    ([0, 255, 16, 171, 1, 2, 3, 4] : List Nat).length = 8
    ∧ (∀ b ∈ ([0, 255, 16, 171, 1, 2, 3, 4] : List Nat), b < 256)
    ∧ saveUser emptyStore "John" "Doe" "j@x.com"
        (makeApiKey [0, 255, 16, 171, 1, 2, 3, 4]) "T0" false = (.ok wRow0, wStore0)
    ∧ (validateKey wStore0 (some (makeApiKey [0, 255, 16, 171, 1, 2, 3, 4])) 5).1
        = .ok (makeApiKey [0, 255, 16, 171, 1, 2, 3, 4]) "active" "T0" := by
  have hsave : saveUser emptyStore "John" "Doe" "j@x.com"
      (makeApiKey [0, 255, 16, 171, 1, 2, 3, 4]) "T0" false = (.ok wRow0, wStore0) := by decide
  exact ⟨by decide, by decide, hsave,
    (generated_key_saveUser_validate_roundtrip emptyStore [0, 255, 16, 171, 1, 2, 3, 4]
      "John" "Doe" "j@x.com" "T0" wRow0 wStore0 5 7 (by decide) (by decide) hsave).1⟩

end UwuntuApi
